/-
Verification of the ESPHomeCLI add-on job subsystem
(src/esphomecli-addon/app/main.py) against its specification.

The embedding models:
  * the in-memory job registry `jobs` as an association list preserving
    Python dict insertion order;
  * a job record as a structure with the fields created by the API
    handlers (`type`, `status`, `logs`, `error`, `created_at`) plus the
    `returncode` field added by `run_esphome_sync`;
  * `build_esphome_args` as a function into `Except` (a raised
    `ValueError` becomes `.error`);
  * the external process result as an inductive outcome (normal
    completion with exit code and captured output, `subprocess.TimeoutExpired`,
    or any other exception), so `run_esphome_sync`, `run_job`,
    `api_validate` and `api_compile` become functions of that outcome;
  * the workspace directory as the list of paths of existing files.
-/
import Mathlib

deriving instance DecidableEq for Except

namespace ESPHomeCLI

/-! ## Data model -/

/-- Job lifecycle status strings used in `main.py`
("pending" / "running" / "success" / "failed"). -/
inductive Status where
  | pending
  | running
  | success
  | failed
  deriving DecidableEq, Repr

/-- Rank of a status in the forward lifecycle order
pending → running → (success | failed): both terminal statuses share the
top rank. -/
def Status.rank : Status → Nat
  | .pending => 0
  | .running => 1
  | .success => 2
  | .failed => 2

/-- The status string stored in the job dict. -/
def Status.str : Status → String
  | .pending => "pending"
  | .running => "running"
  | .success => "success"
  | .failed => "failed"

/-- One job record, as created by the async endpoints
(`{"type", "status", "logs", "error", "created_at"}`) with the
`returncode` key that `run_esphome_sync` adds on normal completion
(`none` = key absent). `created_at` is the event-loop timestamp, kept
opaque as a `Nat`. -/
structure Job where
  type : String
  status : Status
  logs : String
  error : Option String
  created_at : Nat
  returncode : Option Int := none
  deriving DecidableEq, Repr

/-- The global `jobs` dict: job id → record, in insertion order. -/
abbrev Registry := List (String × Job)

/-- Membership test `job_id in jobs`. -/
def jobsContains (reg : Registry) (jid : String) : Bool :=
  reg.any (fun p => p.1 == jid)

/-- Lookup `jobs[job_id]` (first entry with the key, as in a dict where
keys are unique). -/
def jobsGet (reg : Registry) (jid : String) : Option Job :=
  List.lookup jid reg

/-- The guarded in-place update pattern of `run_esphome_sync`:
`if job_id in jobs: jobs[job_id][...] = ...`.  When the id is absent the
registry is untouched. -/
def setIfPresent (reg : Registry) (jid : String) (f : Job → Job) : Registry :=
  if jobsContains reg jid then
    reg.map (fun p => if p.1 = jid then (p.1, f p.2) else p)
  else
    reg

/-- Creation `jobs[job_id] = {...}` for a fresh id: dicts append new keys at the
end. -/
def createJob (reg : Registry) (jid : String) (ty : String) (now : Nat) : Registry :=
  reg ++ [(jid, { type := ty, status := .pending, logs := "", error := none,
                  created_at := now })]

/-- Status of a job as seen through the registry. -/
def statusOf (reg : Registry) (jid : String) : Option Status :=
  (jobsGet reg jid).map Job.status

/-- Error field of a job as seen through the registry (outer `Option` =
record present, inner = the record's `error` value). -/
def errorOf (reg : Registry) (jid : String) : Option (Option String) :=
  (jobsGet reg jid).map Job.error

/-! ## Argument builder (`build_esphome_args`) -/

/-- The set `ALLOWED_COMMANDS = {"config", "compile", "upload", "run", "clean"}`. -/
def ALLOWED_COMMANDS : List String := ["config", "compile", "upload", "run", "clean"]

/-- The keyword options of `build_esphome_args`.  `substitutions` is an
`Optional[dict[str, str]]`; the association list keeps Python dict
iteration order. -/
structure EsphomeOpts where
  device : Option String := none
  upload_speed : Option Int := none
  only_generate : Bool := false
  no_logs : Bool := false
  substitutions : Option (List (String × String)) := none
  deriving DecidableEq, Repr

/-- The function `build_esphome_args` from `main.py`: raises `ValueError` (here
`.error`) for a subcommand outside `ALLOWED_COMMANDS`, otherwise builds
`["esphome", subcommand, str(config_path)]` and appends flags.  Python
truthiness is translated literally: `if device` is false for `None` and
for the empty string, `if upload_speed` is false for `None` and `0`,
`if substitutions` is false for `None` and the empty dict. -/
def build_esphome_args (subcommand : String) (config_path : String)
    (opts : EsphomeOpts) : Except String (List String) :=
  if ¬ (subcommand ∈ ALLOWED_COMMANDS) then
    .error ("Command not allowed: " ++ subcommand)
  else
    let args := ["esphome", subcommand, config_path]
    let args := if subcommand = "compile" ∧ opts.only_generate then
        args ++ ["--only-generate"] else args
    let args := match opts.device with
      | some d =>
          if d ≠ "" ∧ (subcommand = "upload" ∨ subcommand = "run") then
            args ++ ["--device", d] else args
      | none => args
    let args := match opts.upload_speed with
      | some s =>
          if s ≠ 0 ∧ (subcommand = "upload" ∨ subcommand = "run") then
            args ++ ["--upload-speed", toString s] else args
      | none => args
    let args := if opts.no_logs ∧ subcommand = "run" then
        args ++ ["--no-logs"] else args
    let args := match opts.substitutions with
      | some subs =>
          if subs ≠ [] then
            args ++ subs.flatMap (fun kv => ["--substitution", kv.1, kv.2])
          else args
      | none => args
    .ok args

/-- The temp-file path `WORKSPACE / f"config_{job_id}.yaml"` produced by
`write_temp_yaml` (with the default `DATA_DIR=/data`). -/
def tempPath (jid : String) : String :=
  "/data/workspace/config_" ++ jid ++ ".yaml"

/-! ## Process executor and job runner -/

/-- The workspace directory, modelled as the list of existing file
paths. -/
abbrev Fs := List String

/-- Effect of `path.write_text(...)`: after `write_temp_yaml` the temp file for the
job exists (creating or overwriting). -/
def writeTempYaml (fs : Fs) (jid : String) : Fs :=
  if fs.contains (tempPath jid) then fs else fs ++ [tempPath jid]

/-- Effect of `config_path.unlink(missing_ok=True)`: removes the file; absence is
not an error. -/
def unlinkMissingOk (fs : Fs) (path : String) : Fs :=
  fs.filter (fun q => q ≠ path)

/-- Result of one `subprocess.run` invocation inside `run_esphome_sync`
or `api_validate`: normal completion with exit code and captured
stdout/stderr, `subprocess.TimeoutExpired`, or any other exception with
its message (`str(e)`). -/
inductive ProcOutcome where
  | completed (returncode : Int) (stdout stderr : String)
  | timedOut
  | exn (msg : String)
  deriving DecidableEq, Repr

/-- The error text `stderr or stdout or f"Exit code {returncode}"`
(Python `or`: first non-empty string), used both by `run_esphome_sync`
and by `api_validate`. -/
def errChain (stderr stdout : String) (returncode : Int) : String :=
  if stderr ≠ "" then stderr
  else if stdout ≠ "" then stdout
  else "Exit code " ++ toString returncode

/-- First half of `run_esphome_sync`: `if job_id in jobs:
jobs[job_id]["status"] = "running"`, executed before the subprocess is
invoked. -/
def markRunning (jid : String) (reg : Registry) : Registry :=
  setIfPresent reg jid (fun j => { j with status := .running })

/-- The field updates `run_esphome_sync` applies to the job record for
each possible subprocess outcome.  On completion: append
`stdout + stderr` to the logs, set status `"success"`/`"failed"` by the
exit code, record the exit code, and on failure set the error to
`stderr or stdout or f"Exit code {rc}"`.  On `TimeoutExpired`: status
`"failed"`, error `"Command timed out (600s)"`.  On any other exception
`e`: status `"failed"`, error `str(e)`. -/
def applyOutcome (o : ProcOutcome) (j : Job) : Job :=
  match o with
  | .completed rc out err =>
      { j with logs := j.logs ++ out ++ err,
               status := if rc = 0 then .success else .failed,
               returncode := some rc,
               error := if rc = 0 then j.error else some (errChain err out rc) }
  | .timedOut =>
      { j with status := .failed, error := some "Command timed out (600s)" }
  | .exn m =>
      { j with status := .failed, error := some m }

/-- Second half of `run_esphome_sync`: the guarded
(`if job_id in jobs:`) registry update recording the outcome. -/
def recordOutcome (jid : String) (o : ProcOutcome) (reg : Registry) : Registry :=
  setIfPresent reg jid (applyOutcome o)

/-- What `run_esphome_sync` hands back to its caller: the tuple
`(returncode, stdout, stderr)` on completion, `(-1, "", "Timeout")` on
timeout, and a re-raised exception (`.error`) otherwise. -/
def syncReturn (o : ProcOutcome) : Except String (Int × String × String) :=
  match o with
  | .completed rc out err => .ok (rc, out, err)
  | .timedOut => .ok (-1, "", "Timeout")
  | .exn m => .error m

/-- The function `run_esphome_sync(args, job_id)` as a function of the subprocess
outcome: mark the job running, run the process, record the outcome, and
return (or re-raise). -/
def run_esphome_sync (jid : String) (o : ProcOutcome) (reg : Registry) :
    Registry × Except String (Int × String × String) :=
  (recordOutcome jid o (markRunning jid reg), syncReturn o)

/-- The thread target `run_job(job_id, job_type, args, config_path)`: run
`run_esphome_sync` and, in a `finally` block, unlink the temp file; a
failure of the unlink itself (`unlinkRaises`, caught by
`except Exception: pass`) leaves the file behind but is swallowed.  The
third component is the exception, if any, that propagates out of the
thread target (only a re-raise from `run_esphome_sync`; never the
unlink's own failure). -/
def run_job (jid : String) (config_path : String) (o : ProcOutcome)
    (unlinkRaises : Bool) (reg : Registry) (fs : Fs) :
    Registry × Fs × Option String :=
  let r := run_esphome_sync jid o reg
  let fs1 := if unlinkRaises then fs else unlinkMissingOk fs config_path
  (r.1, fs1, match r.2 with | .ok _ => none | .error m => some m)

/-! ## API endpoints -/

/-- An `HTTPException(status_code, detail)` (or, for `api_compile`, an
exception propagating uncaught out of the handler, which the framework
turns into a 500 response). -/
structure HTTPError where
  status_code : Nat
  detail : String
  deriving DecidableEq, Repr

/-- The JSON body returned by `api_validate` (`error = none` means the
key is absent, as in the `valid: true` response). -/
structure ValidateResp where
  valid : Bool
  error : Option String
  stdout : String
  stderr : String
  deriving DecidableEq, Repr

/-- The endpoint `api_validate(body)` as a function of the generated job id and the
subprocess outcome: write the temp yaml, build the `config` args, run
with timeout 120, unlink, and answer.  Non-zero exit yields
`{valid: False, error: stderr or stdout or "Exit code {rc}", ...}`; zero
yields `{valid: True, ...}`; `TimeoutExpired` raises
`HTTPException(408, "Validation timed out")`; any other exception raises
`HTTPException(500, str(e))`. -/
def api_validate (jid : String) (o : ProcOutcome) (fs : Fs) :
    Fs × Except HTTPError ValidateResp :=
  let path := tempPath jid
  let fs1 := writeTempYaml fs jid
  match o with
  | .completed rc out err =>
      let fs2 := unlinkMissingOk fs1 path
      if rc ≠ 0 then
        (fs2, .ok { valid := false, error := some (errChain err out rc),
                    stdout := out, stderr := err })
      else
        (fs2, .ok { valid := true, error := none, stdout := out, stderr := err })
  | .timedOut =>
      (unlinkMissingOk fs1 path, .error { status_code := 408, detail := "Validation timed out" })
  | .exn m =>
      (unlinkMissingOk fs1 path, .error { status_code := 500, detail := m })

/-- Body of a `POST /api/compile` request. -/
structure CompileRequest where
  yaml : String
  substitutions : Option (List (String × String)) := none
  only_generate : Bool := false
  deriving DecidableEq, Repr

/-- The argument vector `api_compile` builds for a submission, from the
config path derived from the submission's own job id. -/
def compileArgsOf (jid : String) (body : CompileRequest) : Except String (List String) :=
  build_esphome_args "compile" (tempPath jid)
    { only_generate := body.only_generate, substitutions := body.substitutions }

/-- The endpoint `api_compile(body)` as a function of the generated job id and the
outcome of `write_temp_yaml` (`.error m` = the write raised an I/O error
with message `m`).  On a successful write it builds the args, registers
the pending job, starts the background thread, and returns the job id.
A failing write propagates out of the handler with no job registered,
but the filesystem state it leaves is not a clean rollback:
`ensure_workspace()` may already have created the workspace directory,
and `path.write_text` opens the file in mode "w" before writing, so
(e.g. on a full disk) a partial `config_{job_id}.yaml` may already exist
when the exception is raised; nothing cleans it up on this path.
`partialWrite` says whether the failing write got that far. -/
def api_compile (jid : String) (body : CompileRequest)
    (writeResult : Except String Unit) (partialWrite : Bool)
    (reg : Registry) (fs : Fs) (now : Nat) :
    Registry × Fs × Except String String :=
  match writeResult with
  | .error m =>
      (reg, if partialWrite then writeTempYaml fs jid else fs, .error m)
  | .ok _ =>
      let fs1 := writeTempYaml fs jid
      match compileArgsOf jid body with
      | .error m => (reg, fs1, .error m)
      | .ok _ => (createJob reg jid "compile" now, fs1, .ok jid)

/-! ## Job listing (`api_list_jobs`) -/

/-- A JSON value stored in a job dict entry. -/
inductive Value where
  | vStr (s : String)
  | vInt (n : Int)
  | vNum (t : Nat)
  | vNone
  deriving DecidableEq, Repr

/-- The job record as the Python dict it is: keys in insertion order
(`type`, `status`, `logs`, `error`, `created_at` at creation, then
`returncode` appended by `run_esphome_sync` when present). -/
def jobDict (j : Job) : List (String × Value) :=
  [("type", .vStr j.type),
   ("status", .vStr j.status.str),
   ("logs", .vStr j.logs),
   ("error", match j.error with | some e => .vStr e | none => .vNone),
   ("created_at", .vNum j.created_at)] ++
  (match j.returncode with | some rc => [("returncode", .vInt rc)] | none => [])

/-- The endpoint `api_list_jobs`: one entry per stored job,
`{"job_id": jid, **{k: v for k, v in data.items() if k != "logs"}}`. -/
def api_list_jobs (reg : Registry) : List (List (String × Value)) :=
  reg.map (fun p =>
    ("job_id", .vStr p.1) :: (jobDict p.2).filter (fun kv => kv.1 ≠ "logs"))

/-! ## Registry lemmas -/

lemma lookup_map_upd (reg : Registry) (jid : String) (f : Job → Job) :
    List.lookup jid (reg.map (fun p => if p.1 = jid then (p.1, f p.2) else p)) =
      (List.lookup jid reg).map f := by
  induction reg with
  | nil => rfl
  | cons p t ih =>
      obtain ⟨k, b⟩ := p
      by_cases h : jid = k
      · subst h
        rw [List.map_cons, if_pos rfl]
        simp [List.lookup]
      · have h2 : (jid == k) = false := beq_eq_false_iff_ne.mpr h
        rw [List.map_cons, if_neg (Ne.symm h)]
        simp [List.lookup, h2, ih]

lemma lookup_eq_none_of_not_contains (reg : Registry) (jid : String)
    (h : jobsContains reg jid = false) : List.lookup jid reg = none := by
  induction reg with
  | nil => rfl
  | cons p t ih =>
      obtain ⟨k, b⟩ := p
      simp only [jobsContains, List.any_cons, Bool.or_eq_false_iff] at h
      have h2 : (jid == k) = false :=
        beq_eq_false_iff_ne.mpr (Ne.symm (beq_eq_false_iff_ne.mp h.1))
      simp only [List.lookup, h2 ]
      exact ih h.2

lemma jobsGet_setIfPresent (reg : Registry) (jid : String) (f : Job → Job) :
    jobsGet (setIfPresent reg jid f) jid = (jobsGet reg jid).map f := by
  unfold setIfPresent jobsGet
  by_cases h : jobsContains reg jid = true
  · rw [if_pos h, lookup_map_upd]
  · rw [if_neg h,
      lookup_eq_none_of_not_contains reg jid (Bool.not_eq_true _ ▸ h)]
    rfl

lemma setIfPresent_of_not_contains (reg : Registry) (jid : String) (f : Job → Job)
    (h : jobsContains reg jid = false) : setIfPresent reg jid f = reg := by
  simp [setIfPresent, h]

lemma jobsGet_createJob (reg : Registry) (jid ty : String) (now : Nat)
    (h : jobsContains reg jid = false) :
    jobsGet (createJob reg jid ty now) jid =
      some { type := ty, status := .pending, logs := "", error := none,
             created_at := now } := by
  unfold createJob jobsGet
  induction reg with
  | nil => simp [List.lookup]
  | cons p t ih =>
      obtain ⟨k, b⟩ := p
      simp only [jobsContains, List.any_cons, Bool.or_eq_false_iff] at h
      have h2 : (jid == k) = false :=
        beq_eq_false_iff_ne.mpr (Ne.symm (beq_eq_false_iff_ne.mp h.1))
      simp only [List.cons_append, List.lookup, h2 ]
      exact ih h.2

lemma jobsContains_createJob_self (reg : Registry) (jid ty : String) (now : Nat) :
    jobsContains (createJob reg jid ty now) jid = true := by
  simp [createJob, jobsContains]

lemma exists_jobsGet_of_contains (reg : Registry) (jid : String)
    (h : jobsContains reg jid = true) : ∃ j, jobsGet reg jid = some j := by
  induction reg with
  | nil => simp [jobsContains] at h
  | cons p t ih =>
      obtain ⟨k, b⟩ := p
      by_cases hk : jid = k
      · subst hk
        exact ⟨b, by simp [jobsGet, List.lookup]⟩
      · have h2 : (jid == k) = false := beq_eq_false_iff_ne.mpr hk
        simp only [jobsContains, List.any_cons, Bool.or_eq_true] at h
        rcases h with h | h
        · exact absurd (eq_of_beq h) (Ne.symm hk)
        · obtain ⟨j, hj⟩ := ih h
          refine ⟨j, ?_⟩
          simpa [jobsGet, List.lookup, h2] using hj

/-- The registry after `run_esphome_sync`: the job's record (if any) goes
through `status := running` and then the single outcome update. -/
lemma jobsGet_run_sync (jid : String) (o : ProcOutcome) (reg : Registry) :
    jobsGet (run_esphome_sync jid o reg).1 jid =
      (jobsGet reg jid).map
        (fun j => applyOutcome o { j with status := .running }) := by
  show jobsGet (recordOutcome jid o (markRunning jid reg)) jid = _
  unfold recordOutcome markRunning
  rw [jobsGet_setIfPresent, jobsGet_setIfPresent, Option.map_map]
  rfl

/-- Whatever the outcome, the outcome update leaves the job in a
terminal status. -/
lemma applyOutcome_status_terminal (o : ProcOutcome) (j : Job) :
    (applyOutcome o j).status = .success ∨ (applyOutcome o j).status = .failed := by
  cases o with
  | completed rc out err =>
      by_cases h : rc = 0 <;> simp [applyOutcome, h]
  | timedOut => simp [applyOutcome]
  | exn m => simp [applyOutcome]

lemma markRunning_of_not_contains (jid : String) (reg : Registry)
    (h : jobsContains reg jid = false) : markRunning jid reg = reg :=
  setIfPresent_of_not_contains _ _ _ h

lemma recordOutcome_of_not_contains (jid : String) (o : ProcOutcome) (reg : Registry)
    (h : jobsContains reg jid = false) : recordOutcome jid o reg = reg :=
  setIfPresent_of_not_contains _ _ _ h

/-! ## Argument-vector lemmas -/

/-- The flag groups `build_esphome_args` appends after
`["esphome", subcommand, config_path]`, as independent segments in the
order the code appends them, with the code's (Python-truthiness)
applicability conditions. -/
def argFlags (subcommand : String) (opts : EsphomeOpts) : List String :=
  (if subcommand = "compile" ∧ opts.only_generate then ["--only-generate"] else []) ++
  (match opts.device with
    | some d =>
        if d ≠ "" ∧ (subcommand = "upload" ∨ subcommand = "run") then
          ["--device", d] else []
    | none => []) ++
  (match opts.upload_speed with
    | some s =>
        if s ≠ 0 ∧ (subcommand = "upload" ∨ subcommand = "run") then
          ["--upload-speed", toString s] else []
    | none => []) ++
  (if opts.no_logs ∧ subcommand = "run" then ["--no-logs"] else []) ++
  (match opts.substitutions with
    | some subs => subs.flatMap (fun kv => ["--substitution", kv.1, kv.2])
    | none => [])

/-- Normal form of `build_esphome_args` on an allowed subcommand: the
base vector followed by the flag segments. -/
lemma build_esphome_args_ok (subcommand config_path : String) (opts : EsphomeOpts)
    (h : subcommand ∈ ALLOWED_COMMANDS) :
    build_esphome_args subcommand config_path opts =
      .ok (["esphome", subcommand, config_path] ++ argFlags subcommand opts) := by
  unfold build_esphome_args argFlags
  rw [if_neg (not_not_intro h)]
  rcases opts with ⟨dev, spd, og, nl, subs⟩
  cases dev <;> cases spd <;> cases subs <;>
    (dsimp only [] ; split_ifs <;> simp_all [List.append_assoc])

/-! ## Claims -/

/-- C2: for every subcommand outside the allow-list
{config, compile, upload, run, clean}, `build_esphome_args` fails with
the "Command not allowed" error before producing any argument vector, so
no vector for a disallowed operation ever reaches the process executor;
for every allowed subcommand it returns a vector normally. -/
theorem build_args_allowlist (subcommand config_path : String) (opts : EsphomeOpts) :
    (subcommand ∉ ALLOWED_COMMANDS →
      build_esphome_args subcommand config_path opts =
        .error ("Command not allowed: " ++ subcommand)) ∧
    (subcommand ∈ ALLOWED_COMMANDS →
      ∃ v, build_esphome_args subcommand config_path opts = .ok v) := by
  constructor
  · intro h
    unfold build_esphome_args
    rw [if_pos h]
  · intro h
    unfold build_esphome_args
    rw [if_neg (not_not_intro h)]
    exact ⟨_, rfl⟩

/-- Witness for C2: the disallowed subcommand "rm" is rejected, the
allowed subcommand "compile" goes through. -/
theorem build_args_allowlist_witness :
    build_esphome_args "rm" "/data/workspace/config_a.yaml" {} =
      .error "Command not allowed: rm" ∧
    ∃ v, build_esphome_args "compile" "/data/workspace/config_a.yaml" {} = .ok v :=
  ⟨(build_args_allowlist "rm" "/data/workspace/config_a.yaml" {}).1 (by decide),
   (build_args_allowlist "compile" "/data/workspace/config_a.yaml" {}).2 (by decide)⟩

/-- C10: calling `run_esphome_sync` with a job id absent from the
registry performs no registry mutation at all: every update is guarded
by the `if job_id in jobs` membership check, so the map is left exactly
unchanged, no record is created, and the registry update itself raises
nothing (in the model: the update is total and is the identity). -/
theorem run_sync_unknown_id_no_mutation (jid : String) (o : ProcOutcome)
    (reg : Registry) (h : jobsContains reg jid = false) :
    (run_esphome_sync jid o reg).1 = reg := by
  show recordOutcome jid o (markRunning jid reg) = reg
  rw [markRunning_of_not_contains jid reg h, recordOutcome_of_not_contains jid o reg h]

/-- Witness for C10: an unknown id on the empty registry, for one
outcome of each kind. -/
theorem run_sync_unknown_id_no_mutation_witness :
    (run_esphome_sync "a" (.completed 0 "out" "") []).1 = [] ∧
    (run_esphome_sync "a" .timedOut []).1 = [] ∧
    (run_esphome_sync "a" (.exn "boom") []).1 = [] :=
  ⟨run_sync_unknown_id_no_mutation "a" (.completed 0 "out" "") [] (by decide),
   run_sync_unknown_id_no_mutation "a" .timedOut [] (by decide),
   run_sync_unknown_id_no_mutation "a" (.exn "boom") [] (by decide)⟩

/-- C1: a job's status only moves forward along
pending → running → (success | failed): the record is created pending,
`run_esphome_sync` sets it to running before the external process, and a
single terminal update (the one `recordOutcome` write) follows; the rank
of the status strictly increases at each step, so no step is backward. -/
theorem job_status_forward (reg0 : Registry) (jid ty : String) (now : Nat)
    (o : ProcOutcome) (h : jobsContains reg0 jid = false) :
    statusOf (createJob reg0 jid ty now) jid = some .pending ∧
    statusOf (markRunning jid (createJob reg0 jid ty now)) jid = some .running ∧
    (run_esphome_sync jid o (createJob reg0 jid ty now)).1 =
      recordOutcome jid o (markRunning jid (createJob reg0 jid ty now)) ∧
    (∃ st, statusOf (run_esphome_sync jid o (createJob reg0 jid ty now)).1 jid = some st ∧
      (st = .success ∨ st = .failed) ∧
      Status.rank .pending < Status.rank .running ∧
      Status.rank .running < Status.rank st) := by
  have hc := jobsGet_createJob reg0 jid ty now h
  refine ⟨?_, ?_, rfl, ?_⟩
  · unfold statusOf
    rw [hc]
    rfl
  · unfold statusOf markRunning
    rw [jobsGet_setIfPresent, hc]
    rfl
  · let j1 : Job :=
      { type := ty, status := .running, logs := "", error := none,
        created_at := now, returncode := none }
    refine ⟨(applyOutcome o j1).status, ?_, ?_, ?_, ?_⟩
    · unfold statusOf
      rw [jobsGet_run_sync, hc]
      rfl
    · exact applyOutcome_status_terminal o j1
    · decide
    · rcases applyOutcome_status_terminal o j1 with hst | hst <;> rw [hst] <;> decide

/-- Witness for C1: a fresh job "a" on the empty registry, run to a
successful completion. -/
theorem job_status_forward_witness :
    statusOf (createJob [] "a" "compile" 0) "a" = some .pending ∧
    statusOf (markRunning "a" (createJob [] "a" "compile" 0)) "a" = some .running ∧
    (run_esphome_sync "a" (.completed 0 "out" "") (createJob [] "a" "compile" 0)).1 =
      recordOutcome "a" (.completed 0 "out" "")
        (markRunning "a" (createJob [] "a" "compile" 0)) ∧
    (∃ st, statusOf
        (run_esphome_sync "a" (.completed 0 "out" "") (createJob [] "a" "compile" 0)).1
        "a" = some st ∧
      (st = .success ∨ st = .failed) ∧
      Status.rank .pending < Status.rank .running ∧
      Status.rank .running < Status.rank st) :=
  job_status_forward [] "a" "compile" 0 (.completed 0 "out" "") (by decide)

/-- C6: when the external process exceeds its ceiling, the async path
marks the job failed with the distinguished message
"Command timed out (600s)" (not a generic exit-code message), returns
without retrying, and the synchronous validate path raises the
distinguished 408 "Validation timed out" error instead of a result. -/
theorem timeout_distinguished (jid : String) (reg : Registry)
    (h : jobsContains reg jid = true) :
    statusOf (run_esphome_sync jid .timedOut reg).1 jid = some .failed ∧
    errorOf (run_esphome_sync jid .timedOut reg).1 jid =
      some (some "Command timed out (600s)") ∧
    (run_esphome_sync jid .timedOut reg).2 = .ok (-1, "", "Timeout") ∧
    (∀ jid2 fs, (api_validate jid2 .timedOut fs).2 =
      .error { status_code := 408, detail := "Validation timed out" }) := by
  obtain ⟨j, hj⟩ := exists_jobsGet_of_contains reg jid h
  refine ⟨?_, ?_, rfl, fun jid2 fs => rfl⟩
  · unfold statusOf
    rw [jobsGet_run_sync, hj]
    rfl
  · unfold errorOf
    rw [jobsGet_run_sync, hj]
    rfl

/-- Witness for C6: a pending job "a" whose process times out. -/
theorem timeout_distinguished_witness :
    statusOf (run_esphome_sync "a" .timedOut
      [("a", { type := "compile", status := .pending, logs := "", error := none,
               created_at := 0 })]).1 "a" = some .failed ∧
    errorOf (run_esphome_sync "a" .timedOut
      [("a", { type := "compile", status := .pending, logs := "", error := none,
               created_at := 0 })]).1 "a" =
      some (some "Command timed out (600s)") ∧
    (run_esphome_sync "a" .timedOut
      [("a", { type := "compile", status := .pending, logs := "", error := none,
               created_at := 0 })]).2 = .ok (-1, "", "Timeout") ∧
    (∀ jid2 fs, (api_validate jid2 .timedOut fs).2 =
      .error { status_code := 408, detail := "Validation timed out" }) :=
  timeout_distinguished "a"
    [("a", { type := "compile", status := .pending, logs := "", error := none,
             created_at := 0 })] (by decide)

/-- C7: on a non-zero exit code the job fails with error text
`stderr`, falling back to `stdout`, falling back to "Exit code N" — so
the error text is never empty; the synchronous validate response uses
the same fallback chain when `valid` is false. -/
theorem nonzero_exit_error_chain (jid : String) (reg : Registry) (rc : Int)
    (out err : String) (h : jobsContains reg jid = true) (hrc : rc ≠ 0) :
    statusOf (run_esphome_sync jid (.completed rc out err) reg).1 jid = some .failed ∧
    errorOf (run_esphome_sync jid (.completed rc out err) reg).1 jid =
      some (some (errChain err out rc)) ∧
    (err ≠ "" → errChain err out rc = err) ∧
    (err = "" → out ≠ "" → errChain err out rc = out) ∧
    (err = "" → out = "" → errChain err out rc = "Exit code " ++ toString rc) ∧
    errChain err out rc ≠ "" ∧
    (∀ jid2 fs, (api_validate jid2 (.completed rc out err) fs).2 =
      .ok { valid := false, error := some (errChain err out rc),
            stdout := out, stderr := err }) := by
  obtain ⟨j, hj⟩ := exists_jobsGet_of_contains reg jid h
  refine ⟨?_, ?_, ?_, ?_, ?_, ?_, ?_⟩
  · unfold statusOf
    rw [jobsGet_run_sync, hj]
    simp [applyOutcome, hrc]
  · unfold errorOf
    rw [jobsGet_run_sync, hj]
    simp [applyOutcome, hrc]
  · intro he
    simp [errChain, he]
  · intro he ho
    simp [errChain, he, ho]
  · intro he ho
    simp [errChain, he, ho]
  · unfold errChain
    split_ifs with h1 h2
    · exact h1
    · exact h2
    · intro hcontra
      have hl := congrArg String.length hcontra
      rw [String.length_append] at hl
      have h10 : ("Exit code ").length = 10 := rfl
      have h0 : ("" : String).length = 0 := rfl
      rw [h10, h0] at hl
      omega
  · intro jid2 fs
    dsimp only [api_validate]
    rw [if_pos hrc]

/-- Witness for C7: a job "a" whose process exits 2 with empty stderr
and stdout, so the error falls back to "Exit code 2". -/
theorem nonzero_exit_error_chain_witness :
    statusOf (run_esphome_sync "a" (.completed 2 "" "")
      [("a", { type := "run", status := .pending, logs := "", error := none,
               created_at := 0 })]).1 "a" = some .failed ∧
    errorOf (run_esphome_sync "a" (.completed 2 "" "")
      [("a", { type := "run", status := .pending, logs := "", error := none,
               created_at := 0 })]).1 "a" = some (some (errChain "" "" 2)) ∧
    (("" : String) ≠ "" → errChain "" "" 2 = "") ∧
    (("" : String) = "" → ("" : String) ≠ "" → errChain "" "" 2 = "") ∧
    (("" : String) = "" → ("" : String) = "" →
      errChain "" "" 2 = "Exit code " ++ toString (2 : Int)) ∧
    errChain "" "" 2 ≠ "" ∧
    (∀ jid2 fs, (api_validate jid2 (.completed 2 "" "") fs).2 =
      .ok { valid := false, error := some (errChain "" "" 2),
            stdout := "", stderr := "" }) :=
  nonzero_exit_error_chain "a"
    [("a", { type := "run", status := .pending, logs := "", error := none,
             created_at := 0 })] 2 "" "" (by decide) (by decide)

/-- The argument vector exactly as claim C5 words it: the base vector,
then `--only-generate` when the subcommand is compile and the flag is
set, then `--device` and `--upload-speed` when the subcommand is upload
or run and the option is supplied, then `--no-logs` when the subcommand
is run and the flag is set, then one substitution triple per supplied
substitution in order. -/
def specArgsC5 (subcommand : String) (config_path : String) (opts : EsphomeOpts) :
    List String :=
  ["esphome", subcommand, config_path] ++
  (if subcommand = "compile" ∧ opts.only_generate then ["--only-generate"] else []) ++
  (match opts.device with
    | some d =>
        if subcommand = "upload" ∨ subcommand = "run" then ["--device", d] else []
    | none => []) ++
  (match opts.upload_speed with
    | some s =>
        if subcommand = "upload" ∨ subcommand = "run" then
          ["--upload-speed", toString s] else []
    | none => []) ++
  (if subcommand = "run" ∧ opts.no_logs then ["--no-logs"] else []) ++
  (match opts.substitutions with
    | some subs => subs.flatMap (fun kv => ["--substitution", kv.1, kv.2])
    | none => [])

/-- Counterexample to C5 as stated: for an upload with
`upload_speed = 0` the option is supplied, but Python truthiness
(`if upload_speed`) drops the `--upload-speed` flag, so the built vector
is not the one the claim describes. -/
theorem flag_mapping_cex :
    build_esphome_args "upload" "/data/workspace/config_a.yaml"
        { upload_speed := some 0 } ≠
      .ok (specArgsC5 "upload" "/data/workspace/config_a.yaml"
        { upload_speed := some 0 }) := by
  decide

/-- C5 (amended): for every allowed subcommand the built vector is the
base vector followed by the flag groups in the claimed order, where
`--device` requires a supplied non-empty device, `--upload-speed` a
supplied non-zero speed (Python truthiness), and the other conditions
are as claimed. -/
theorem flag_mapping_amended (subcommand config_path : String) (opts : EsphomeOpts)
    (h : subcommand ∈ ALLOWED_COMMANDS) :
    build_esphome_args subcommand config_path opts =
      .ok (["esphome", subcommand, config_path] ++ argFlags subcommand opts) :=
  build_esphome_args_ok subcommand config_path opts h

/-- Witness for the amended C5: a run submission with every option
supplied and truthy. -/
theorem flag_mapping_amended_witness :
    build_esphome_args "run" "/data/workspace/config_a.yaml"
        { device := some "/dev/ttyUSB0", upload_speed := some 115200,
          only_generate := true, no_logs := true,
          substitutions := some [("name", "dev1")] } =
      .ok (["esphome", "run", "/data/workspace/config_a.yaml"] ++
        argFlags "run"
          { device := some "/dev/ttyUSB0", upload_speed := some 115200,
            only_generate := true, no_logs := true,
            substitutions := some [("name", "dev1")] }) :=
  flag_mapping_amended "run" "/data/workspace/config_a.yaml"
    { device := some "/dev/ttyUSB0", upload_speed := some 115200,
      only_generate := true, no_logs := true,
      substitutions := some [("name", "dev1")] } (by decide)

/-- Counterexample to C3 as stated: two compile submissions with
identical document and options but (necessarily) distinct fresh job ids
produce different argument vectors, because the config-path element
embeds the job id. -/
theorem determinism_cex :
    compileArgsOf "a" { yaml := "esphome:" } ≠
      compileArgsOf "b" { yaml := "esphome:" } := by
  decide

/-- C3 (amended): for identical operation and options the two argument
vectors agree everywhere except the config-path element (index 2), which
carries each submission's own job id; the vectors are byte-for-byte
identical exactly when the job ids coincide. -/
theorem determinism_amended (subcommand : String) (opts : EsphomeOpts)
    (j1 j2 : String) (h : subcommand ∈ ALLOWED_COMMANDS) :
    ∃ a1 a2,
      build_esphome_args subcommand (tempPath j1) opts = .ok a1 ∧
      build_esphome_args subcommand (tempPath j2) opts = .ok a2 ∧
      a1.eraseIdx 2 = a2.eraseIdx 2 ∧
      a1.get? 2 = some (tempPath j1) ∧
      a2.get? 2 = some (tempPath j2) ∧
      (j1 = j2 → a1 = a2) := by
  refine ⟨_, _, build_esphome_args_ok subcommand (tempPath j1) opts h,
    build_esphome_args_ok subcommand (tempPath j2) opts h, ?_, ?_, ?_, ?_⟩
  · simp [List.eraseIdx]
  · rfl
  · rfl
  · intro hj
    rw [hj]

/-- Witness for the amended C3: two compile submissions with identical
options and distinct ids "a" and "b". -/
theorem determinism_amended_witness :
    ∃ a1 a2,
      build_esphome_args "compile" (tempPath "a") { only_generate := true } = .ok a1 ∧
      build_esphome_args "compile" (tempPath "b") { only_generate := true } = .ok a2 ∧
      a1.eraseIdx 2 = a2.eraseIdx 2 ∧
      a1.get? 2 = some (tempPath "a") ∧
      a2.get? 2 = some (tempPath "b") ∧
      (("a" : String) = "b" → a1 = a2) :=
  determinism_amended "compile" { only_generate := true } "a" "b" (by decide)

lemma tempPath_mem_writeTempYaml (fs : Fs) (jid : String) :
    tempPath jid ∈ writeTempYaml fs jid := by
  unfold writeTempYaml
  split
  · next h => simpa using h
  · simp

/-- Counterexample to C4 as stated: when `write_temp_yaml` raises
"disk full" (having already opened the partial temp file), `api_compile`
creates no job at all — there is no record (let alone a failed one) for
the submission's id, and the exception propagates out of the handler
instead. -/
theorem write_failure_cex :
    (api_compile "a" { yaml := "esphome:" } (.error "disk full") true [] [] 0).1 = [] ∧
    (api_compile "a" { yaml := "esphome:" } (.error "disk full") true [] [] 0).2.2 =
      .error "disk full" ∧
    ¬ ∃ j, jobsGet (api_compile "a" { yaml := "esphome:" }
        (.error "disk full") true [] [] 0).1 "a" = some j ∧ j.status = .failed := by
  refine ⟨rfl, rfl, ?_⟩
  rintro ⟨j, hj, _⟩
  simp [api_compile, jobsGet, List.lookup] at hj

/-- C4 (amended): a failing temporary-document write makes the
submission handler propagate the underlying I/O error to the caller (the
framework answers with a 500 carrying it); no job record is created, so
the registry is left exactly unchanged — whether or not the failing
write had already materialized a partial temp file, which, when it had,
stays behind with no cleanup on this path. -/
theorem write_failure_amended (jid : String) (body : CompileRequest) (m : String)
    (partialWrite : Bool) (reg : Registry) (fs : Fs) (now : Nat) :
    (api_compile jid body (.error m) partialWrite reg fs now).1 = reg ∧
    (api_compile jid body (.error m) partialWrite reg fs now).2.2 = .error m ∧
    tempPath jid ∈ (api_compile jid body (.error m) true reg fs now).2.1 :=
  ⟨rfl, rfl, tempPath_mem_writeTempYaml fs jid⟩

/-- C8: `run_job` unlinks the temp file on every exit path (success,
non-zero exit, timeout, unexpected exception); the job's recorded
outcome is the same whether or not the unlink itself fails, an unlink
failure never propagates (what escapes the thread target is exactly the
re-raised executor exception, independent of the cleanup), and when the
unlink goes through the file no longer exists while the job sits in a
terminal status. -/
theorem run_job_cleanup (jid config_path : String) (o : ProcOutcome)
    (unlinkRaises : Bool) (reg : Registry) (fs : Fs) :
    (run_job jid config_path o unlinkRaises reg fs).1 =
      (run_esphome_sync jid o reg).1 ∧
    (run_job jid config_path o unlinkRaises reg fs).2.2 =
      (match o with | .exn m => some m | _ => none) ∧
    config_path ∉ (run_job jid config_path o false reg fs).2.1 ∧
    (jobsContains reg jid = true →
      ∃ st, statusOf (run_job jid config_path o unlinkRaises reg fs).1 jid = some st ∧
        (st = .success ∨ st = .failed)) := by
  refine ⟨rfl, ?_, ?_, ?_⟩
  · cases o <;> rfl
  · show config_path ∉ unlinkMissingOk fs config_path
    simp [unlinkMissingOk, List.mem_filter]
  · intro h
    obtain ⟨j, hj⟩ := exists_jobsGet_of_contains reg jid h
    refine ⟨(applyOutcome o { j with status := .running }).status, ?_, ?_⟩
    · show statusOf (run_esphome_sync jid o reg).1 jid = _
      unfold statusOf
      rw [jobsGet_run_sync, hj]
      rfl
    · exact applyOutcome_status_terminal o _

/-- A concrete freshly created job record, for witnesses. -/
def sampleJob (ty : String) : Job :=
  { type := ty, status := .pending, logs := "", error := none, created_at := 0 }

/-- Witness for C8: job "a", a timeout outcome, a failing unlink, and a
workspace holding the temp file. -/
theorem run_job_cleanup_witness :
    (run_job "a" (tempPath "a") .timedOut true [("a", sampleJob "clean")]
        [tempPath "a"]).1 =
      (run_esphome_sync "a" .timedOut [("a", sampleJob "clean")]).1 ∧
    (run_job "a" (tempPath "a") .timedOut true [("a", sampleJob "clean")]
        [tempPath "a"]).2.2 =
      (match ProcOutcome.timedOut with | .exn m => some m | _ => none) ∧
    tempPath "a" ∉ (run_job "a" (tempPath "a") .timedOut false [("a", sampleJob "clean")]
        [tempPath "a"]).2.1 ∧
    (jobsContains [("a", sampleJob "clean")] "a" = true →
      ∃ st, statusOf (run_job "a" (tempPath "a") .timedOut true
          [("a", sampleJob "clean")] [tempPath "a"]).1 "a" = some st ∧
        (st = .success ∨ st = .failed)) :=
  run_job_cleanup "a" (tempPath "a") .timedOut true [("a", sampleJob "clean")]
    [tempPath "a"]

/-- The field content of one listing entry: the job id under "job_id",
every stored field of the record with its value, and no "logs" key. -/
def EntryMatches (p : String × Job) (e : List (String × Value)) : Prop :=
  e.lookup "job_id" = some (.vStr p.1) ∧
  e.lookup "logs" = none ∧
  e.lookup "type" = some (.vStr p.2.type) ∧
  e.lookup "status" = some (.vStr p.2.status.str) ∧
  e.lookup "error" =
    some (match p.2.error with | some s => .vStr s | none => .vNone) ∧
  e.lookup "created_at" = some (.vNum p.2.created_at) ∧
  e.lookup "returncode" = p.2.returncode.map Value.vInt

lemma entryMatches_of_apiList (jid : String) (j : Job) :
    EntryMatches (jid, j)
      (("job_id", .vStr jid) :: (jobDict j).filter (fun kv => kv.1 ≠ "logs")) := by
  cases hrc : j.returncode <;>
    simp [EntryMatches, jobDict, hrc, List.lookup, List.filter]

/-- C9: for every registry state, the list endpoint returns exactly one
entry per stored job, pairwise in order; each entry holds the job id and
every stored field of the record, and the "logs" payload is present in
no entry, whatever the job's status or log size. -/
theorem list_jobs_omits_logs (reg : Registry) :
    (api_list_jobs reg).length = reg.length ∧
    List.Forall₂ EntryMatches reg (api_list_jobs reg) := by
  constructor
  · simp [api_list_jobs]
  · induction reg with
    | nil => exact .nil
    | cons p t ih =>
        exact .cons (entryMatches_of_apiList p.1 p.2) ih

end ESPHomeCLI
